import Mathlib

/-!
Shallow embedding of the school-administration backend
(SchoolManager, ClassroomManager, StudentManager and their AppError
machinery) as executable Lean definitions, followed by theorems that
settle the spec claims about capacity invariants, cascading delete,
and error propagation.

Conventions of the embedding:
* A MongoDB ObjectId is represented by a `Nat` payload.  Route-level
  identifiers arrive as 24-hex strings; `toObjectId` converts such a
  string into an ObjectId.  A BSON value stored in a document is a
  `BVal`: either an ObjectId (`.oid`) or the raw hex string (`.str`).
  BSON equality across the two types is `false`, exactly as in MongoDB,
  which is what makes several of the filters in the source match
  nothing.
* `Date` values are modelled by a `Nat` tick passed in as `now`.
* Each manager operation returns the post-operation store together with
  an `Except` outcome, so that writes performed before a throw persist,
  as they do in the JavaScript.
-/

/-- A BSON value used in `_id` / `schoolId` / `classroomId` positions:
either an ObjectId with payload `n`, or the raw 24-hex string of the
ObjectId with payload `n` stored as a plain string. -/
inductive BVal where
  | oid (n : Nat)
  | str (n : Nat)
deriving DecidableEq, Repr

/-- `toObjectId` from `libs/utils.js`: converts an id (hex string or
already an ObjectId) to an ObjectId.  We only model calls on valid ids,
as all ids in the claims come through the validation layer. -/
def toObjectIdB : BVal → BVal
  | .oid n => .oid n
  | .str n => .oid n

/-- `toObjectId` applied to a route-level hex-string id. -/
def toObjectId (n : Nat) : BVal := .oid n

/-- BSON equality between a filter value and a stored document `_id`
(stored `_id`s are always ObjectIds generated by `insertOne`): a raw
string never equals an ObjectId. -/
def idMatches (filterVal : BVal) (docId : Nat) : Bool :=
  match filterVal with
  | .oid n => n == docId
  | .str _ => false

/-- The error-code table of `libs/error/codes.js` (default export):
code name maps to (message, HTTP status).  Note that INVALID_OPERATION
and VALIDATION_ERROR are absent from the source table. -/
def errorCodesTable : List (String × String × Nat) :=
  [ ("AUTH_REQUIRED", ("Authentication is required", 401)),
    ("INVALID_TOKEN", ("Invalid or expired token", 401)),
    ("ACCESS_DENIED", ("You do not have permission to perform this action", 403)),
    ("RESOURCE_NOT_FOUND", ("Requested resource not found", 404)),
    ("RESOURCE_EXISTS", ("Resource already exists", 409)),
    ("INVALID_INPUT", ("Invalid input data", 400)),
    ("CLASSROOM_FULL", ("Classroom has reached maximum capacity", 422)),
    ("INVALID_TRANSFER", ("Student transfer request is invalid", 422)),
    ("SCHOOL_INACTIVE", ("School is not active", 422)),
    ("INTERNAL_ERROR", ("Internal server error occurred", 500)),
    ("DATABASE_ERROR", ("Database operation failed", 500)),
    ("EXTERNAL_SERVICE_ERROR", ("External service request failed", 503)) ]

/-- Lookup in the error-code table (`errorCodes[errorCode]`). -/
def appErrorInfo? (code : String) : Option (String × Nat) :=
  (errorCodesTable.find? (fun e => e.1 == code)).map (·.2)

/-- An `AppError` instance: `code`/`message`/`status` come from the
table, `details` is the detail object passed to the constructor,
modelled as ordered key/value pairs with values stringified. -/
structure AppError where
  code : String
  message : String
  status : Nat
  details : List (String × String)
deriving DecidableEq, Repr

/-- A JavaScript exception: either a constructed `AppError`, or a
TypeError (as raised when the `AppError` constructor looks up a code
that is not in the table and dereferences `undefined`). -/
inductive JsError where
  | app (e : AppError)
  | typeErr (msg : String)
deriving DecidableEq, Repr

/-- The `message` property of a JavaScript error. -/
def JsError.message : JsError → String
  | .app e => e.message
  | .typeErr m => m

/-- The message of the TypeError raised by `new AppError(code)` when
`code` is missing from the table and `error.message` is read off
`undefined`. -/
def undefinedMessageRead : String :=
  "TypeError: cannot read message of undefined"

/-- `new AppError(codeName, details)`: looks the code up in the table;
succeeds with an `AppError` carrying the table message/status, or
raises a TypeError when the code is not in the table. -/
def newAppError (codeName : String) (details : List (String × String)) : JsError :=
  match appErrorInfo? codeName with
  | some (msg, status) => .app { code := codeName, message := msg, status := status, details := details }
  | none => .typeErr undefinedMessageRead

/-- `new AppError('DATABASE_ERROR', details)`, which always succeeds
because DATABASE_ERROR is in the table. -/
def databaseError (details : List (String × String)) : AppError :=
  { code := "DATABASE_ERROR", message := "Database operation failed", status := 500, details := details }

/-- Transfer-history record appended by `transferStudent`. -/
structure TransferRecord where
  fromSchoolId : Nat
  toSchoolId : Nat
  date : Nat
  reason : String
deriving DecidableEq, Repr

/-- A document of the `students` collection, with the fields the
managers read or write. -/
structure Student where
  _id : Nat
  schoolId : BVal
  classroomId : Option BVal
  firstName : String
  lastName : String
  email : String
  grade : Int
  status : String
  enrolledAt : Nat
  updatedAt : Nat
  lastTransferDate : Option Nat := none
  lastTransferReason : Option String := none
  transferHistory : List TransferRecord := []
  deactivationReason : Option String := none
  deactivatedAt : Option Nat := none
  deletedAt : Option Nat := none
  deletedBy : Option String := none
  deletionReason : Option String := none
deriving DecidableEq, Repr

/-- A document of the `classrooms` collection. -/
structure Classroom where
  _id : Nat
  schoolId : BVal
  name : String
  capacity : Int
  resources : List String
  currentStudents : Int
  status : String
  createdAt : Nat
  updatedAt : Nat
  deletedAt : Option Nat := none
  deletedBy : Option String := none
  deletionReason : Option String := none
deriving DecidableEq, Repr

/-- School address sub-document. -/
structure Address where
  street : String
  city : String
  state : String
  zipCode : String
deriving DecidableEq, Repr

/-- School contact-info sub-document. -/
structure ContactInfo where
  email : String
  phone : String
deriving DecidableEq, Repr

/-- Metadata counters seeded by `createSchool`. -/
structure SchoolMetadata where
  studentCount : Int
  classroomCount : Int
  activeTeacherCount : Int
deriving DecidableEq, Repr

/-- A document of the `schools` collection. -/
structure School where
  _id : Nat
  name : String
  address : Address
  contactInfo : ContactInfo
  adminId : Option Nat
  status : String
  metadata : SchoolMetadata
  createdAt : Nat
  updatedAt : Nat
  createdBy : Option Nat := none
  deletedAt : Option Nat := none
  deletedBy : Option String := none
  deletionReason : Option String := none
deriving DecidableEq, Repr

/-- The document store: the three collections the core managers touch,
plus the generator for fresh ObjectIds. -/
structure DB where
  schools : List School
  classrooms : List Classroom
  students : List Student
  nextId : Nat
deriving DecidableEq, Repr

/-- `findOneAndUpdate`-style helper: update the first element matching
`p` with `f`; returns the new list and the updated element (the
`returnDocument: after` variant), or `none` when nothing matched. -/
def updateFirst (p : α → Bool) (f : α → α) : List α → List α × Option α
  | [] => ([], none)
  | x :: xs =>
    if p x then (f x :: xs, some (f x))
    else
      let r := updateFirst p f xs
      (x :: r.1, r.2)

/-- `updateMany`-style helper: update every element matching `p`;
returns the new list, the matched count and the modified count (the
elements actually changed by `f`). -/
def updateAll [DecidableEq α] (p : α → Bool) (f : α → α) (l : List α) :
    List α × Nat × Nat :=
  (l.map (fun x => if p x then f x else x),
   l.countP (fun x => p x),
   l.countP (fun x => p x && decide (f x ≠ x)))

/-- The error component of a manager result. -/
def errCode (r : Except AppError α) : Option String :=
  match r with
  | .error e => some e.code
  | .ok _ => none

/-- Whether a manager result is an error. -/
def isErr (r : Except AppError α) : Bool :=
  match r with
  | .error _ => true
  | .ok _ => false

/-- Whether a raw (pre-catch) result is an error. -/
def isJsErr (r : Except JsError α) : Bool :=
  match r with
  | .error _ => true
  | .ok _ => false

/-- Update object accepted by `updateStudent` after filtering to the
allowed keys `firstName`, `lastName`, `grade`, `classroomId`; a key is
present iff the option is `some`. -/
structure StudentUpdates where
  firstName : Option String := none
  lastName : Option String := none
  grade : Option Int := none
  classroomId : Option Nat := none
deriving DecidableEq, Repr

/-- `Object.keys(filteredUpdates).length === 0`. -/
def StudentUpdates.isEmpty (u : StudentUpdates) : Bool :=
  u.firstName.isNone && u.lastName.isNone && u.grade.isNone && u.classroomId.isNone

/-- The `$set` of `updateStudent`: spread of `filteredUpdates` plus a
fresh `updatedAt`. -/
def applyStudentUpdates (u : StudentUpdates) (now : Nat) (s : Student) : Student :=
  { s with
    firstName := u.firstName.getD s.firstName
    lastName := u.lastName.getD s.lastName
    grade := u.grade.getD s.grade
    classroomId := match u.classroomId with
      | some cid => some (BVal.str cid)
      | none => s.classroomId
    updatedAt := now }

namespace StudentManager

/-- `enrollStudent` try-block (`Student.manager.js`).  Checks the
duplicate-email and classroom-capacity preconditions, inserts the
student, then increments the target classroom counter. -/
def enrollStudentBody (db : DB) (schoolId : Nat) (classroomId : Option Nat)
    (firstName lastName email : String) (grade : Int) (now : Nat) :
    DB × Except JsError Student :=
  match db.students.find? (fun s => s.email == email && s.status == "active") with
  | some _ =>
    (db, .error (newAppError "RESOURCE_EXISTS"
      [("resource", "Student"), ("field", "email"), ("value", email),
       ("message", "Student with this email already exists")]))
  | none =>
    let clsCheck : Except JsError Unit :=
      match classroomId with
      | none => .ok ()
      | some cid =>
        match db.classrooms.find? (fun c =>
            idMatches (toObjectId cid) c._id && c.schoolId == BVal.str schoolId) with
        | none =>
          .error (newAppError "RESOURCE_NOT_FOUND"
            [("resource", "Classroom"), ("id", toString cid)])
        | some classroom =>
          if classroom.currentStudents >= classroom.capacity then
            .error (newAppError "CLASSROOM_FULL"
              [("classroomId", toString cid),
               ("currentCapacity", toString classroom.currentStudents),
               ("maxCapacity", toString classroom.capacity)])
          else .ok ()
    match clsCheck with
    | .error e => (db, .error e)
    | .ok _ =>
      let student : Student :=
        { _id := db.nextId
          schoolId := BVal.str schoolId
          classroomId := classroomId.map BVal.str
          firstName := firstName
          lastName := lastName
          email := email
          grade := grade
          status := "active"
          enrolledAt := now
          updatedAt := now }
      let db1 : DB :=
        { db with students := db.students ++ [student], nextId := db.nextId + 1 }
      let db2 : DB :=
        match classroomId with
        | none => db1
        | some cid =>
          { db1 with classrooms :=
              (updateFirst (fun c => idMatches (toObjectId cid) c._id)
                (fun c => { c with currentStudents := c.currentStudents + 1 })
                db1.classrooms).1 }
      (db2, .ok student)

/-- `enrollStudent` with its catch-block: every error, including a
domain `AppError`, is re-wrapped as DATABASE_ERROR (the catch has no
`instanceof AppError` guard in this manager). -/
def enrollStudent (db : DB) (schoolId : Nat) (classroomId : Option Nat)
    (firstName lastName email : String) (grade : Int) (now : Nat) :
    DB × Except AppError Student :=
  match enrollStudentBody db schoolId classroomId firstName lastName email grade now with
  | (db1, .ok s) => (db1, .ok s)
  | (db1, .error e) =>
    (db1, .error (databaseError
      [("operation", "enrollStudent"), ("details", e.message)]))

/-- `updateStudent` try-block.  Note that the counter-adjustment
condition compares `result.classroomId` of the AFTER document with the
requested `classroomId`, which are always equal once the `$set` has
run. -/
def updateStudentBody (db : DB) (studentId schoolId : Nat)
    (updates : StudentUpdates) (now : Nat) : DB × Except JsError Student :=
  if updates.isEmpty then
    (db, .error (newAppError "INVALID_INPUT"
      [("message", "No valid update fields provided"),
       ("allowedFields", "firstName,lastName,grade,classroomId")]))
  else
    let clsCheck : Except JsError Unit :=
      match updates.classroomId with
      | none => .ok ()
      | some cid =>
        match db.classrooms.find? (fun c =>
            idMatches (toObjectId cid) c._id && c.schoolId == BVal.str schoolId) with
        | none =>
          .error (newAppError "RESOURCE_NOT_FOUND"
            [("resource", "Classroom"), ("id", toString cid),
             ("message", "Classroom not found")])
        | some classroom =>
          if classroom.currentStudents >= classroom.capacity then
            .error (newAppError "CLASSROOM_FULL"
              [("classroomId", toString cid),
               ("currentCapacity", toString classroom.currentStudents),
               ("maxCapacity", toString classroom.capacity)])
          else .ok ()
    match clsCheck with
    | .error e => (db, .error e)
    | .ok _ =>
      let upd := updateFirst
        (fun s => idMatches (toObjectId studentId) s._id && s.schoolId == BVal.str schoolId)
        (applyStudentUpdates updates now) db.students
      match upd.2 with
      | none =>
        (db, .error (newAppError "RESOURCE_NOT_FOUND"
          [("resource", "Student"), ("id", toString studentId)]))
      | some result =>
        let db1 : DB := { db with students := upd.1 }
        let db2 : DB :=
          match updates.classroomId with
          | none => db1
          | some cid =>
            if result.classroomId != some (BVal.str cid) then
              let dbDec : DB :=
                match result.classroomId with
                | none => db1
                | some old =>
                  { db1 with classrooms :=
                      (updateFirst (fun c => idMatches (toObjectIdB old) c._id)
                        (fun c => { c with currentStudents := c.currentStudents - 1 })
                        db1.classrooms).1 }
              { dbDec with classrooms :=
                  (updateFirst (fun c => idMatches (toObjectId cid) c._id)
                    (fun c => { c with currentStudents := c.currentStudents + 1 })
                    dbDec.classrooms).1 }
            else db1
        (db2, .ok result)

/-- `updateStudent` with its catch-block (unconditional DATABASE_ERROR
re-wrap, as in the source). -/
def updateStudent (db : DB) (studentId schoolId : Nat)
    (updates : StudentUpdates) (now : Nat) : DB × Except AppError Student :=
  match updateStudentBody db studentId schoolId updates now with
  | (db1, .ok s) => (db1, .ok s)
  | (db1, .error e) =>
    (db1, .error (databaseError
      [("operation", "updateStudent"), ("details", e.message)]))

/-- `transferStudent` try-block.  The decrement of the old classroom
filters `_id` with the raw string `student.classroomId` (no
`toObjectId`), which never equals a stored ObjectId. -/
def transferStudentBody (db : DB) (studentId fromSchoolId toSchoolId : Nat)
    (reason : String) (now : Nat) : DB × Except JsError Student :=
  match db.students.find? (fun s =>
      idMatches (toObjectId studentId) s._id &&
      s.schoolId == BVal.str fromSchoolId && s.status == "active") with
  | none =>
    (db, .error (newAppError "INVALID_TRANSFER"
      [("reason", "Student not found in source school"),
       ("studentId", toString studentId), ("fromSchoolId", toString fromSchoolId)]))
  | some student =>
    match db.schools.find? (fun sc =>
        idMatches (toObjectId toSchoolId) sc._id && sc.status == "active") with
    | none =>
      (db, .error (newAppError "SCHOOL_INACTIVE"
        [("schoolId", toString toSchoolId)]))
    | some _ =>
      let upd := updateFirst (fun s => idMatches (toObjectId studentId) s._id)
        (fun s =>
          { s with
            schoolId := BVal.str toSchoolId
            classroomId := none
            lastTransferDate := some now
            lastTransferReason := some reason
            updatedAt := now
            transferHistory := s.transferHistory ++
              [{ fromSchoolId := fromSchoolId, toSchoolId := toSchoolId,
                 date := now, reason := reason }] })
        db.students
      match upd.2 with
      | none =>
        (db, .error (newAppError "DATABASE_ERROR"
          [("operation", "transferStudent"),
           ("details", "Failed to update student record")]))
      | some result =>
        let db1 : DB := { db with students := upd.1 }
        let db2 : DB :=
          match student.classroomId with
          | none => db1
          | some cid =>
            { db1 with classrooms :=
                (updateFirst (fun c => idMatches cid c._id)
                  (fun c => { c with currentStudents := c.currentStudents - 1 })
                  db1.classrooms).1 }
        (db2, .ok result)

/-- `transferStudent` with its catch-block (unconditional
DATABASE_ERROR re-wrap). -/
def transferStudent (db : DB) (studentId fromSchoolId toSchoolId : Nat)
    (reason : String) (now : Nat) : DB × Except AppError Student :=
  match transferStudentBody db studentId fromSchoolId toSchoolId reason now with
  | (db1, .ok s) => (db1, .ok s)
  | (db1, .error e) =>
    (db1, .error (databaseError
      [("operation", "transferStudent"), ("details", e.message)]))

/-- `deactivateStudent` try-block: finds the active student, marks it
inactive, then decrements its classroom counter (this decrement does
use `toObjectId`, so it matches). -/
def deactivateStudentBody (db : DB) (studentId schoolId : Nat)
    (reason : String) (now : Nat) : DB × Except JsError Unit :=
  match db.students.find? (fun s =>
      idMatches (toObjectId studentId) s._id &&
      s.schoolId == BVal.str schoolId && s.status == "active") with
  | none =>
    (db, .error (newAppError "RESOURCE_NOT_FOUND"
      [("resource", "Student"), ("id", toString studentId)]))
  | some student =>
    let upd := updateFirst (fun s => idMatches (toObjectId studentId) s._id)
      (fun s =>
        { s with
          status := "inactive"
          deactivationReason := some reason
          deactivatedAt := some now
          updatedAt := now })
      db.students
    let db1 : DB := { db with students := upd.1 }
    let db2 : DB :=
      match student.classroomId with
      | none => db1
      | some cid =>
        { db1 with classrooms :=
            (updateFirst (fun c => idMatches (toObjectIdB cid) c._id)
              (fun c => { c with currentStudents := c.currentStudents - 1 })
              db1.classrooms).1 }
    (db2, .ok ())

/-- `deactivateStudent` with its catch-block (unconditional
DATABASE_ERROR re-wrap). -/
def deactivateStudent (db : DB) (studentId schoolId : Nat)
    (reason : String) (now : Nat) : DB × Except AppError Unit :=
  match deactivateStudentBody db studentId schoolId reason now with
  | (db1, .ok u) => (db1, .ok u)
  | (db1, .error e) =>
    (db1, .error (databaseError
      [("operation", "deactivateStudent"), ("details", e.message)]))

end StudentManager

/-- Update object accepted by `updateClassroom` (destructured as
`{ name, capacity, resources }`); a key is present iff the option is
`some`. -/
structure ClassroomUpdates where
  name : Option String := none
  capacity : Option Int := none
  resources : Option (List String) := none
deriving DecidableEq, Repr

/-- JS truthiness of the destructured `name` (a string is truthy iff
nonempty). -/
def ClassroomUpdates.nameTruthy (u : ClassroomUpdates) : Bool :=
  match u.name with
  | some s => s ≠ ""
  | none => false

/-- JS truthiness of the destructured `capacity` (a number is truthy
iff nonzero). -/
def ClassroomUpdates.capacityTruthy (u : ClassroomUpdates) : Bool :=
  match u.capacity with
  | some c => c ≠ 0
  | none => false

/-- JS truthiness of the destructured `resources` (an array is always
truthy when present). -/
def ClassroomUpdates.resourcesTruthy (u : ClassroomUpdates) : Bool :=
  u.resources.isSome

/-- The `$set` of `updateClassroom`: conditional spreads of the truthy
fields plus a fresh `updatedAt`. -/
def applyClassroomUpdates (u : ClassroomUpdates) (now : Nat) (c : Classroom) : Classroom :=
  { c with
    name := if u.nameTruthy then u.name.getD c.name else c.name
    capacity := if u.capacityTruthy then u.capacity.getD c.capacity else c.capacity
    resources := if u.resourcesTruthy then u.resources.getD c.resources else c.resources
    updatedAt := now }

namespace ClassroomManager

/-- `createClassroom` try-block: active-school check, duplicate-name
check among non-deleted classrooms of the school, then insert with
`currentStudents = 0`. -/
def createClassroomBody (db : DB) (schoolId : Nat) (name : String)
    (capacity : Int) (resources : List String) (now : Nat) :
    DB × Except JsError Classroom :=
  match db.schools.find? (fun s =>
      idMatches (toObjectId schoolId) s._id && s.status == "active") with
  | none =>
    (db, .error (newAppError "SCHOOL_INACTIVE"
      [("schoolId", toString schoolId),
       ("message", "School not found or inactive")]))
  | some _ =>
    match db.classrooms.find? (fun c =>
        c.schoolId == BVal.str schoolId && c.name == name && c.status != "deleted") with
    | some _ =>
      (db, .error (newAppError "RESOURCE_EXISTS"
        [("resource", "Classroom"), ("field", "name"), ("value", name),
         ("schoolId", toString schoolId)]))
    | none =>
      let classroom : Classroom :=
        { _id := db.nextId
          schoolId := BVal.str schoolId
          name := name
          capacity := capacity
          resources := resources
          currentStudents := 0
          status := "active"
          createdAt := now
          updatedAt := now }
      ({ db with classrooms := db.classrooms ++ [classroom], nextId := db.nextId + 1 },
       .ok classroom)

/-- `createClassroom` with its catch-block: an `AppError` is rethrown
unchanged (`instanceof` guard), anything else becomes DATABASE_ERROR. -/
def createClassroom (db : DB) (schoolId : Nat) (name : String)
    (capacity : Int) (resources : List String) (now : Nat) :
    DB × Except AppError Classroom :=
  match createClassroomBody db schoolId name capacity resources now with
  | (db1, .ok c) => (db1, .ok c)
  | (db1, .error (.app e)) => (db1, .error e)
  | (db1, .error (.typeErr m)) =>
    (db1, .error (databaseError
      [("operation", "createClassroom"), ("schoolId", toString schoolId),
       ("details", m)]))

/-- `updateClassroom` try-block.  The capacity-shrink rejection
constructs `new AppError('INVALID_OPERATION', ...)`, a code that is
missing from the codes table, so the construction itself raises a
TypeError. -/
def updateClassroomBody (db : DB) (classroomId schoolId : Nat)
    (updates : ClassroomUpdates) (now : Nat) : DB × Except JsError Classroom :=
  match db.classrooms.find? (fun c =>
      idMatches (toObjectId classroomId) c._id && c.schoolId == BVal.str schoolId) with
  | none =>
    (db, .error (newAppError "RESOURCE_NOT_FOUND"
      [("resource", "Classroom"), ("id", toString classroomId),
       ("schoolId", toString schoolId)]))
  | some currentClassroom =>
    if updates.capacityTruthy &&
        currentClassroom.currentStudents > updates.capacity.getD 0 then
      (db, .error (newAppError "INVALID_OPERATION"
        [("message", "New capacity cannot be less than current number of students"),
         ("currentStudents", toString currentClassroom.currentStudents),
         ("requestedCapacity", toString (updates.capacity.getD 0))]))
    else
      let dupCheck : Except JsError Unit :=
        if updates.nameTruthy && updates.name != some currentClassroom.name then
          match db.classrooms.find? (fun c =>
              c.schoolId == BVal.str schoolId &&
              some c.name == updates.name &&
              !(idMatches (toObjectId classroomId) c._id) &&
              c.status != "deleted") with
          | some _ =>
            .error (newAppError "RESOURCE_EXISTS"
              [("resource", "Classroom"), ("field", "name"),
               ("value", updates.name.getD ""), ("schoolId", toString schoolId)])
          | none => .ok ()
        else .ok ()
      match dupCheck with
      | .error e => (db, .error e)
      | .ok _ =>
        if !updates.nameTruthy && !updates.capacityTruthy && !updates.resourcesTruthy then
          (db, .error (newAppError "INVALID_INPUT"
            [("message", "No valid update fields provided"),
             ("allowedFields", "name,capacity,resources")]))
        else
          let upd := updateFirst (fun c =>
              idMatches (toObjectId classroomId) c._id && c.schoolId == BVal.str schoolId)
            (applyClassroomUpdates updates now) db.classrooms
          match upd.2 with
          | none =>
            (db, .error (newAppError "DATABASE_ERROR"
              [("message", "Failed to update classroom"),
               ("classroomId", toString classroomId),
               ("schoolId", toString schoolId)]))
          | some result =>
            ({ db with classrooms := upd.1 }, .ok result)

/-- `updateClassroom` with its catch-block (`instanceof` guard, so the
TypeError from the missing INVALID_OPERATION code is what gets wrapped
as DATABASE_ERROR). -/
def updateClassroom (db : DB) (classroomId schoolId : Nat)
    (updates : ClassroomUpdates) (now : Nat) : DB × Except AppError Classroom :=
  match updateClassroomBody db classroomId schoolId updates now with
  | (db1, .ok c) => (db1, .ok c)
  | (db1, .error (.app e)) => (db1, .error e)
  | (db1, .error (.typeErr m)) =>
    (db1, .error (databaseError
      [("operation", "updateClassroom"), ("classroomId", toString classroomId),
       ("schoolId", toString schoolId), ("details", m)]))

/-- `deleteClassroom` try-block.  The occupancy check reads the
classroom via `toObjectId`, but the soft-delete `findOneAndUpdate`
filters `_id` with the RAW string `classroomId`, so the write matches
no document; the result of the write is not inspected and the function
returns success regardless. -/
def deleteClassroomBody (db : DB) (classroomId schoolId : Nat)
    (now : Nat) : DB × Except JsError Unit :=
  match db.classrooms.find? (fun c =>
      idMatches (toObjectId classroomId) c._id && c.schoolId == BVal.str schoolId) with
  | none =>
    (db, .error (newAppError "RESOURCE_NOT_FOUND"
      [("resource", "Classroom"), ("id", toString classroomId),
       ("schoolId", toString schoolId)]))
  | some classroom =>
    if classroom.currentStudents > 0 then
      (db, .error (newAppError "INVALID_OPERATION"
        [("message", "Cannot delete classroom with active students"),
         ("classroomId", toString classroomId),
         ("currentStudents", toString classroom.currentStudents)]))
    else
      let upd := updateFirst (fun c =>
          idMatches (BVal.str classroomId) c._id && c.schoolId == BVal.str schoolId)
        (fun c => { c with status := "deleted", deletedAt := some now })
        db.classrooms
      ({ db with classrooms := upd.1 }, .ok ())

/-- `deleteClassroom` with its catch-block (`instanceof` guard). -/
def deleteClassroom (db : DB) (classroomId schoolId : Nat)
    (now : Nat) : DB × Except AppError Unit :=
  match deleteClassroomBody db classroomId schoolId now with
  | (db1, .ok u) => (db1, .ok u)
  | (db1, .error (.app e)) => (db1, .error e)
  | (db1, .error (.typeErr m)) =>
    (db1, .error (databaseError
      [("operation", "deleteClassroom"), ("classroomId", toString classroomId),
       ("schoolId", toString schoolId), ("details", m)]))

end ClassroomManager

/-- `updateOne`-style helper: update the first element matching `p`;
returns the new list, the matched count (0 or 1) and the modified
count (1 iff the patch actually changed the matched element). -/
def updateOneDoc [DecidableEq α] (p : α → Bool) (f : α → α) (l : List α) :
    List α × Nat × Nat :=
  let r := updateFirst p f l
  match l.find? p with
  | none => (r.1, 0, 0)
  | some x => (r.1, 1, if f x ≠ x then 1 else 0)

/-- Case-insensitive whole-name match, modelling the
`{ $regex: new RegExp('^' + name + '$', 'i') }` filter of
`SchoolManager` for names without regex metacharacters. -/
def ciMatch (queryName stored : String) : Bool :=
  stored.toLower == queryName.toLower

/-- Deletion summary returned by `deleteSchool`. -/
structure DeletionSummary where
  studentsBefore : Nat
  studentsDeleted : Nat
  classroomsBefore : Nat
  classroomsDeleted : Nat
deriving DecidableEq, Repr

/-- Result object of `deleteSchool`. -/
structure DeleteSchoolResult where
  success : Bool
  message : String
  deletionSummary : DeletionSummary
  school : Option School
deriving DecidableEq, Repr

/-- Executable model of `String.prototype.trim`: strip leading and
trailing whitespace characters. -/
def jsTrim (s : String) : String :=
  String.mk (((s.data.dropWhile Char.isWhitespace).reverse.dropWhile Char.isWhitespace).reverse)

namespace SchoolManager

/-- `validateSchoolExists(schoolId, { includeSoftDeleted: false })`:
find the school by `_id` excluding soft-deleted ones, or raise
RESOURCE_NOT_FOUND. -/
def validateSchoolExists (db : DB) (schoolId : Nat) : Except JsError School :=
  match db.schools.find? (fun s =>
      idMatches (toObjectId schoolId) s._id && s.status != "deleted") with
  | none =>
    .error (newAppError "RESOURCE_NOT_FOUND"
      [("resource", "School"), ("id", toString schoolId)])
  | some school => .ok school

/-- First empty required address field in the order the source loops
over them (`street`, `city`, `state`, `zipCode`), modelling the JS
falsiness check `!address?.[field]`. -/
def firstEmptyAddressField (a : Address) : Option String :=
  if a.street == "" then some "street"
  else if a.city == "" then some "city"
  else if a.state == "" then some "state"
  else if a.zipCode == "" then some "zipCode"
  else none

/-- `createSchool` try-block.  The duplicate-name check has NO status
filter, so it matches schools of any status including soft-deleted
ones; it also runs BEFORE the address/contact validations.  Note the
VALIDATION_ERROR code used by those validations is missing from the
codes table, so those paths raise a TypeError. -/
def createSchoolBody (db : DB) (name : String) (address : Address)
    (contactInfo : ContactInfo) (adminId : Option Nat) (now : Nat) :
    DB × Except JsError School :=
  if jsTrim name == "" then
    (db, .error (newAppError "VALIDATION_ERROR"
      [("field", "name"), ("message", "School name is required")]))
  else
    match db.schools.find? (fun s => ciMatch name s.name) with
    | some _ =>
      (db, .error (newAppError "RESOURCE_EXISTS"
        [("resource", "School"), ("field", "name"), ("value", name)]))
    | none =>
      match firstEmptyAddressField address with
      | some f =>
        (db, .error (newAppError "VALIDATION_ERROR"
          [("field", "address." ++ f), ("message", f ++ " is required in address")]))
      | none =>
        if contactInfo.email == "" || contactInfo.phone == "" then
          (db, .error (newAppError "VALIDATION_ERROR"
            [("field", "contactInfo"),
             ("message", "Email and phone are required in contact info")]))
        else
          let school : School :=
            { _id := db.nextId
              name := jsTrim name
              address := address
              contactInfo := contactInfo
              adminId := adminId
              status := "active"
              metadata := { studentCount := 0, classroomCount := 0, activeTeacherCount := 0 }
              createdAt := now
              updatedAt := now
              createdBy := adminId }
          ({ db with schools := db.schools ++ [school], nextId := db.nextId + 1 },
           .ok school)

/-- `createSchool` with its catch-block (`instanceof` guard). -/
def createSchool (db : DB) (name : String) (address : Address)
    (contactInfo : ContactInfo) (adminId : Option Nat) (now : Nat) :
    DB × Except AppError School :=
  match createSchoolBody db name address contactInfo adminId now with
  | (db1, .ok s) => (db1, .ok s)
  | (db1, .error (.app e)) => (db1, .error e)
  | (db1, .error (.typeErr m)) =>
    (db1, .error (databaseError
      [("operation", "createSchool"), ("details", m)]))

/-- The `deleteMeta` patch applied to students by `deleteSchool`. -/
def deleteMetaStudent (now : Nat) (s : Student) : Student :=
  { s with status := "deleted", deletedAt := some now, updatedAt := now,
           deletedBy := some "SYSTEM", deletionReason := some "SCHOOL_DELETE" }

/-- The `deleteMeta` patch applied to classrooms by `deleteSchool`. -/
def deleteMetaClassroom (now : Nat) (c : Classroom) : Classroom :=
  { c with status := "deleted", deletedAt := some now, updatedAt := now,
           deletedBy := some "SYSTEM", deletionReason := some "SCHOOL_DELETE" }

/-- The `deleteMeta` patch applied to the school by `deleteSchool`. -/
def deleteMetaSchool (now : Nat) (s : School) : School :=
  { s with status := "deleted", deletedAt := some now, updatedAt := now,
           deletedBy := some "SYSTEM", deletionReason := some "SCHOOL_DELETE" }

/-- `deleteSchool` try-block: validate, count, then the three-step
cascade (students, classrooms, school).  The student and classroom
filters compare the stored `schoolId` (a raw string written by the
routes) against `toObjectId(schoolId)` (an ObjectId), a cross-type
BSON comparison that never matches. -/
def deleteSchoolBody (db : DB) (schoolId : Nat) (now : Nat) :
    DB × Except JsError DeleteSchoolResult :=
  match validateSchoolExists db schoolId with
  | .error e => (db, .error e)
  | .ok _school =>
    let studentsBefore := db.students.countP (fun s =>
      s.schoolId == toObjectId schoolId && s.status != "deleted")
    let classroomsBefore := db.classrooms.countP (fun c =>
      c.schoolId == toObjectId schoolId && c.status != "deleted")
    let studentStep := updateAll (fun s =>
        s.schoolId == toObjectId schoolId && s.status != "deleted")
      (deleteMetaStudent now) db.students
    let classroomStep := updateAll (fun c =>
        c.schoolId == toObjectId schoolId && c.status != "deleted")
      (deleteMetaClassroom now) db.classrooms
    let schoolStep := updateOneDoc (fun s => idMatches (toObjectId schoolId) s._id)
      (deleteMetaSchool now) db.schools
    let db1 : DB :=
      { db with students := studentStep.1, classrooms := classroomStep.1,
                schools := schoolStep.1 }
    if schoolStep.2.1 == 0 then
      (db1, .error (newAppError "DATABASE_ERROR"
        [("message", "Failed to delete school - school not found"),
         ("schoolId", toString schoolId)]))
    else if schoolStep.2.2 == 0 then
      (db1, .error (newAppError "DATABASE_ERROR"
        [("message", "Failed to delete school - no modifications made"),
         ("schoolId", toString schoolId),
         ("details", "School might already be deleted")]))
    else
      let updatedSchool := db1.schools.find? (fun s =>
        idMatches (toObjectId schoolId) s._id)
      (db1, .ok
        { success := true
          message := "School and related entities successfully deleted"
          deletionSummary :=
            { studentsBefore := studentsBefore
              studentsDeleted := studentStep.2.2
              classroomsBefore := classroomsBefore
              classroomsDeleted := classroomStep.2.2 }
          school := updatedSchool })

/-- `deleteSchool` with its catch-block (`instanceof` guard). -/
def deleteSchool (db : DB) (schoolId : Nat) (now : Nat) :
    DB × Except AppError DeleteSchoolResult :=
  match deleteSchoolBody db schoolId now with
  | (db1, .ok r) => (db1, .ok r)
  | (db1, .error (.app e)) => (db1, .error e)
  | (db1, .error (.typeErr m)) =>
    (db1, .error (databaseError
      [("operation", "deleteSchool"), ("schoolId", toString schoolId),
       ("details", m)]))

end SchoolManager

/-- Shared address fixture for concrete stores. -/
def baseAddress : Address :=
  { street := "1 Main St", city := "Springfield", state := "CA", zipCode := "12345" }

/-- Shared contact-info fixture for concrete stores. -/
def baseContact : ContactInfo :=
  { email := "office@school.test", phone := "1234567890" }

/-- A school document as the routes and `createSchool` produce it. -/
def mkSchoolDoc (id : Nat) (nm status : String) : School :=
  { _id := id, name := nm, address := baseAddress, contactInfo := baseContact,
    adminId := none, status := status,
    metadata := { studentCount := 0, classroomCount := 0, activeTeacherCount := 0 },
    createdAt := 0, updatedAt := 0 }

/-- A classroom document as `createClassroom` produces it: `schoolId`
is stored as the raw route string. -/
def mkClassroomDoc (id sid : Nat) (nm : String) (cap cur : Int) : Classroom :=
  { _id := id, schoolId := BVal.str sid, name := nm, capacity := cap,
    resources := [], currentStudents := cur, status := "active",
    createdAt := 0, updatedAt := 0 }

/-- A student document as `enrollStudent` produces it: `schoolId` and
`classroomId` are stored as raw route strings. -/
def mkStudentDoc (id sid : Nat) (cls : Option Nat) (em : String) : Student :=
  { _id := id, schoolId := BVal.str sid, classroomId := cls.map BVal.str,
    firstName := "F", lastName := "L", email := em, grade := 5,
    status := "active", enrolledAt := 0, updatedAt := 0 }

/-- One completed manager operation of the kinds quantified over by the
capacity invariant (run one at a time, results discarded). -/
inductive Op where
  | enroll (schoolId : Nat) (classroomId : Option Nat)
      (firstName lastName email : String) (grade : Int)
  | updateStu (studentId schoolId : Nat) (updates : StudentUpdates)
  | transfer (studentId fromSchoolId toSchoolId : Nat) (reason : String)
  | deactivate (studentId schoolId : Nat) (reason : String)
  | createCls (schoolId : Nat) (name : String) (capacity : Int) (resources : List String)
  | updateCls (classroomId schoolId : Nat) (updates : ClassroomUpdates)
deriving Repr

/-- Apply one operation to the store, keeping the post-operation store
whether the operation succeeded or failed. -/
def applyOp (db : DB) (now : Nat) : Op → DB
  | .enroll sid cid fn ln em gr => (StudentManager.enrollStudent db sid cid fn ln em gr now).1
  | .updateStu st sid u => (StudentManager.updateStudent db st sid u now).1
  | .transfer st f t r => (StudentManager.transferStudent db st f t r now).1
  | .deactivate st sid r => (StudentManager.deactivateStudent db st sid r now).1
  | .createCls sid nm cap rs => (ClassroomManager.createClassroom db sid nm cap rs now).1
  | .updateCls cid sid u => (ClassroomManager.updateClassroom db cid sid u now).1

/-- Run a sequence of operations one at a time (quiescent between
operations), with a strictly increasing clock. -/
def runOps : DB → Nat → List Op → DB
  | db, _, [] => db
  | db, t, op :: ops => runOps (applyOp db t op) (t + 1) ops

/-- The deletion summary of a successful `deleteSchool` result. -/
def okSummary (r : Except AppError DeleteSchoolResult) : Option DeletionSummary :=
  match r with
  | .ok res => some res.deletionSummary
  | .error _ => none

/-- `currentStudents` of the classroom with the given `_id`. -/
def classroomCount (db : DB) (id : Nat) : Option Int :=
  (db.classrooms.find? (fun c => c._id == id)).map (fun c => c.currentStudents)

/-- `status` of the classroom with the given `_id`. -/
def classroomStatus (db : DB) (id : Nat) : Option String :=
  (db.classrooms.find? (fun c => c._id == id)).map (fun c => c.status)

/-- `classroomId` of the student with the given `_id`. -/
def studentClassroom (db : DB) (id : Nat) : Option (Option BVal) :=
  (db.students.find? (fun s => s._id == id)).map (fun s => s.classroomId)

/-- Initial store for the capacity-invariant run: one active school. -/
def c1InitDb : DB :=
  { schools := [mkSchoolDoc 1 "North High" "active"], classrooms := [],
    students := [], nextId := 2 }

/-- The operation sequence: create classrooms A (id 2) and B (id 3) of
capacity 1, enroll a student (id 4) into A, move the student to B via
`updateStudent`, then deactivate the student. -/
def c1Ops : List Op :=
  [ .createCls 1 "A" 1 [],
    .createCls 1 "B" 1 [],
    .enroll 1 (some 2) "Jo" "Doe" "jo@test.com" 5,
    .updateStu 4 1 { classroomId := some 3 },
    .deactivate 4 1 "moving" ]

/-- Store with an active student occupying the duplicate email. -/
def c2Db : DB :=
  { schools := [mkSchoolDoc 1 "North High" "active"], classrooms := [],
    students := [mkStudentDoc 4 1 none "dup@test.com"], nextId := 5 }

/-- Store with one empty classroom of capacity 1. -/
def c3Db : DB :=
  { schools := [mkSchoolDoc 1 "North High" "active"],
    classrooms := [mkClassroomDoc 2 1 "A" 1 0], students := [], nextId := 3 }

/-- Store with a school owning two active classrooms and three active
students. -/
def c4Db : DB :=
  { schools := [mkSchoolDoc 1 "North High" "active"],
    classrooms := [mkClassroomDoc 2 1 "A" 10 2, mkClassroomDoc 3 1 "B" 10 1],
    students := [mkStudentDoc 4 1 (some 2) "s1@test.com",
                 mkStudentDoc 5 1 (some 2) "s2@test.com",
                 mkStudentDoc 6 1 (some 3) "s3@test.com"],
    nextId := 7 }

/-- Store with a student in classroom 2 and a spare-capacity
classroom 3. -/
def c5Db : DB :=
  { schools := [mkSchoolDoc 1 "North High" "active"],
    classrooms := [mkClassroomDoc 2 1 "A" 2 1, mkClassroomDoc 3 1 "B" 2 0],
    students := [mkStudentDoc 4 1 (some 2) "s1@test.com"], nextId := 5 }

/-- Store with a classroom holding 6 students out of capacity 10. -/
def c6Db : DB :=
  { schools := [mkSchoolDoc 1 "North High" "active"],
    classrooms := [mkClassroomDoc 2 1 "A" 10 6], students := [], nextId := 3 }

/-- Store with an empty classroom (id 2) and an occupied one (id 3). -/
def c7Db : DB :=
  { schools := [mkSchoolDoc 1 "North High" "active"],
    classrooms := [mkClassroomDoc 2 1 "A" 10 0, mkClassroomDoc 3 1 "B" 10 1],
    students := [], nextId := 4 }

/-- Store with an active source school (1), an inactive target school
(2), and an active student (3) seated in classroom 4 of school 1. -/
def c8Db : DB :=
  { schools := [mkSchoolDoc 1 "North High" "active", mkSchoolDoc 2 "South High" "inactive"],
    classrooms := [mkClassroomDoc 4 1 "A" 10 1],
    students := [mkStudentDoc 3 1 (some 4) "s1@test.com"], nextId := 5 }

/-- Store with a soft-deleted school named Alpha High. -/
def c9Db : DB :=
  { schools := [{ mkSchoolDoc 1 "Alpha High" "deleted" with deletedAt := some 0 }],
    classrooms := [], students := [], nextId := 2 }

/-- Store for the enrollment-failure witness: the email is taken. -/
def c10Db : DB :=
  { schools := [mkSchoolDoc 1 "North High" "active"], classrooms := [],
    students := [mkStudentDoc 4 1 none "dup@test.com"], nextId := 5 }

/-- C1: the claim says every classroom satisfies
`0 ≤ currentStudents ≤ capacity` at every quiescent point after any
sequence of completed manager operations.  The code violates it:
creating two capacity-1 classrooms, enrolling a student into the
first, moving the student to the second via `updateStudent` (which
never adjusts counters because it compares the AFTER document), and
then deactivating the student drives classroom 3 to
`currentStudents = -1`. -/
theorem c1_capacity_invariant_violated :
    classroomCount (runOps c1InitDb 100 c1Ops) 3 = some (-1) ∧
    (runOps c1InitDb 100 c1Ops).classrooms.any
      (fun c => decide (c.currentStudents < 0)) = true :=
  ⟨rfl, rfl⟩

/-- C2: the claim says a detected domain-rule violation reaches the
caller with its specific semantic kind.  In `StudentManager` the catch
block has no `instanceof AppError` guard, so a duplicate-email
RESOURCE_EXISTS is re-wrapped and the caller receives DATABASE_ERROR
with only the original message as detail. -/
theorem c2_domain_error_rewrapped :
    (StudentManager.enrollStudent c2Db 1 none "A" "B" "dup@test.com" 4 100).2 =
      .error (databaseError
        [("operation", "enrollStudent"), ("details", "Resource already exists")]) ∧
    errCode (StudentManager.enrollStudent c2Db 1 none "A" "B" "dup@test.com" 4 100).2 ≠
      some "RESOURCE_EXISTS" :=
  ⟨rfl, by decide⟩

/-- C3: the first enrollment into the capacity-1 classroom succeeds
and sets `currentStudents = 1` (as claimed), but the second
enrollment, which the claim says fails with CLASSROOM_FULL, reaches
the caller as DATABASE_ERROR because the catch block re-wraps the
CLASSROOM_FULL it detected. -/
theorem c3_second_enroll_database_error :
    isErr (StudentManager.enrollStudent c3Db 1 (some 2) "A" "B" "x1@test.com" 4 100).2 = false ∧
    classroomCount
      (StudentManager.enrollStudent c3Db 1 (some 2) "A" "B" "x1@test.com" 4 100).1 2 = some 1 ∧
    (StudentManager.enrollStudent
        (StudentManager.enrollStudent c3Db 1 (some 2) "A" "B" "x1@test.com" 4 100).1
        1 (some 2) "C" "D" "x2@test.com" 4 101).2 =
      .error (databaseError
        [("operation", "enrollStudent"),
         ("details", "Classroom has reached maximum capacity")]) :=
  ⟨rfl, rfl, rfl⟩

/-- C4: the claim says `deleteSchool` on a school with 3 active
students and 2 active classrooms reports before/deleted = 3/3 and 2/2
and marks them all deleted.  The cascade filters compare the stored
string `schoolId` with `toObjectId(schoolId)`, which never matches, so
the summary is all zeros, every student and classroom stays active,
and only the school document itself is marked deleted. -/
theorem c4_cascade_misses_students_and_classrooms :
    okSummary (SchoolManager.deleteSchool c4Db 1 100).2 =
      some { studentsBefore := 0, studentsDeleted := 0,
             classroomsBefore := 0, classroomsDeleted := 0 } ∧
    (SchoolManager.deleteSchool c4Db 1 100).1.students.all
      (fun s => s.status == "active") = true ∧
    (SchoolManager.deleteSchool c4Db 1 100).1.classrooms.all
      (fun c => c.status == "active") = true ∧
    ((SchoolManager.deleteSchool c4Db 1 100).1.schools.find?
      (fun s => s._id == 1)).map (fun s => s.status) = some "deleted" :=
  ⟨rfl, rfl, rfl, rfl⟩

/-- C5: the claim says a successful classroom change through
`updateStudent` decrements the old classroom counter and increments
the new one.  The operation succeeds and moves the student, but the
counter block is guarded by `result.classroomId !== updates.classroomId`
on the AFTER document, which is always false, so both counters are
left untouched (old stays 1, new stays 0). -/
theorem c5_classroom_change_leaves_counters :
    isErr (StudentManager.updateStudent c5Db 4 1 { classroomId := some 3 } 100).2 = false ∧
    studentClassroom (StudentManager.updateStudent c5Db 4 1 { classroomId := some 3 } 100).1 4 =
      some (some (BVal.str 3)) ∧
    classroomCount (StudentManager.updateStudent c5Db 4 1 { classroomId := some 3 } 100).1 2 =
      some 1 ∧
    classroomCount (StudentManager.updateStudent c5Db 4 1 { classroomId := some 3 } 100).1 3 =
      some 0 :=
  ⟨rfl, rfl, rfl, rfl⟩

/-- C6: the capacity-shrink rejection path constructs
`new AppError('INVALID_OPERATION', ...)`, but INVALID_OPERATION is not
in the codes table, so the constructor raises a TypeError which the
catch re-wraps: the caller receives DATABASE_ERROR, not the
capacity-shrink semantic.  The classroom document is left unchanged,
as claimed. -/
theorem c6_capacity_shrink_database_error :
    (ClassroomManager.updateClassroom c6Db 2 1 { capacity := some 5 } 100).2 =
      .error (databaseError
        [("operation", "updateClassroom"), ("classroomId", "2"),
         ("schoolId", "1"), ("details", undefinedMessageRead)]) ∧
    (ClassroomManager.updateClassroom c6Db 2 1 { capacity := some 5 } 100).1 = c6Db :=
  ⟨rfl, rfl⟩

/-- C7: the claim says `deleteClassroom` on an empty classroom marks
it deleted.  The soft-delete write filters `_id` with the raw string
id (no `toObjectId`), matches nothing, and the unchecked result lets
the call return success while the classroom stays active.  The
occupied-classroom half fails (as DATABASE_ERROR via the missing
INVALID_OPERATION code) and leaves the store unchanged, as claimed. -/
theorem c7_delete_classroom_does_not_delete :
    (ClassroomManager.deleteClassroom c7Db 2 1 100).2 = .ok () ∧
    classroomStatus (ClassroomManager.deleteClassroom c7Db 2 1 100).1 2 = some "active" ∧
    isErr (ClassroomManager.deleteClassroom c7Db 3 1 100).2 = true ∧
    (ClassroomManager.deleteClassroom c7Db 3 1 100).1 = c7Db :=
  ⟨rfl, rfl, rfl, rfl⟩

/-- C8: the claim says transferring to a non-active school fails with
SCHOOL_INACTIVE.  The manager detects SCHOOL_INACTIVE but its catch
re-wraps it, so the caller receives DATABASE_ERROR; the student
document and every counter are left unchanged, as claimed. -/
theorem c8_school_inactive_rewrapped :
    (StudentManager.transferStudent c8Db 3 1 2 "family move" 100).2 =
      .error (databaseError
        [("operation", "transferStudent"), ("details", "School is not active")]) ∧
    (StudentManager.transferStudent c8Db 3 1 2 "family move" 100).1 = c8Db :=
  ⟨rfl, rfl⟩

/-- Constructing an AppError with the VALIDATION_ERROR code raises the
TypeError, because that code is missing from the table. -/
theorem newAppError_validation (d : List (String × String)) :
    newAppError "VALIDATION_ERROR" d = .typeErr undefinedMessageRead := rfl

/-- Constructing an AppError with the RESOURCE_EXISTS code succeeds
with the table message and status. -/
theorem newAppError_resource_exists (d : List (String × String)) :
    newAppError "RESOURCE_EXISTS" d =
      .app { code := "RESOURCE_EXISTS", message := "Resource already exists",
             status := 409, details := d } := rfl

/-- The `enrollStudent` try-block leaves the store untouched whenever
it raises: all three precondition throws happen before the insert. -/
theorem enrollStudentBody_error_fst (db : DB) (schoolId : Nat) (classroomId : Option Nat)
    (firstName lastName email : String) (grade : Int) (now : Nat) :
    isJsErr (StudentManager.enrollStudentBody db schoolId classroomId
        firstName lastName email grade now).2 = true →
    (StudentManager.enrollStudentBody db schoolId classroomId
        firstName lastName email grade now).1 = db := by
  unfold StudentManager.enrollStudentBody
  cases hdup : db.students.find? (fun s => s.email == email && s.status == "active") with
  | some s => simp
  | none =>
    simp only []
    cases classroomId with
    | none => simp [isJsErr]
    | some cid =>
      cases hcls : db.classrooms.find? (fun c =>
          idMatches (toObjectId cid) c._id && c.schoolId == BVal.str schoolId) with
      | none => simp [hcls]
      | some classroom =>
        simp only [hcls]
        by_cases hcap : classroom.currentStudents ≥ classroom.capacity
        · simp [hcap]
        · simp [hcap, isJsErr]

/-- C9: `createSchool` fails with RESOURCE_EXISTS exactly when some
existing school of any status matches the requested name
case-insensitively (the duplicate filter has no status clause and runs
before the address/contact validations), and on that failure the store
is unchanged.  The hypothesis that the requested name does not trim to
the empty string reflects the upstream shape validation (min length
2), which would otherwise divert the call into the name-required path
first. -/
theorem c9_create_school_resource_exists_iff (db : DB) (name : String)
    (address : Address) (contactInfo : ContactInfo) (adminId : Option Nat) (now : Nat)
    (hname : ¬ jsTrim name = "") :
    (errCode (SchoolManager.createSchool db name address contactInfo adminId now).2 =
        some "RESOURCE_EXISTS" ↔
      db.schools.any (fun s => ciMatch name s.name) = true) ∧
    (errCode (SchoolManager.createSchool db name address contactInfo adminId now).2 =
        some "RESOURCE_EXISTS" →
      (SchoolManager.createSchool db name address contactInfo adminId now).1 = db) := by
  have htrim : (jsTrim name == "") = false := beq_eq_false_iff_ne.mpr hname
  cases hfind : db.schools.find? (fun s => ciMatch name s.name) with
  | some s =>
    have hps := List.find?_some hfind
    have hmem := List.mem_of_find?_eq_some hfind
    have hany : db.schools.any (fun s => ciMatch name s.name) = true :=
      List.any_eq_true.mpr ⟨s, hmem, by simpa using hps⟩
    simp only [SchoolManager.createSchool, SchoolManager.createSchoolBody, htrim,
      Bool.false_eq_true, if_false, hfind, newAppError_resource_exists, errCode, hany]
    simp
  | none =>
    have hany : db.schools.any (fun s => ciMatch name s.name) = false := by
      rw [Bool.eq_false_iff]
      intro hcontra
      rcases List.any_eq_true.mp hcontra with ⟨x, hx, hpx⟩
      exact absurd hpx (by simpa using List.find?_eq_none.mp hfind x hx)
    simp only [SchoolManager.createSchool, SchoolManager.createSchoolBody, htrim,
      Bool.false_eq_true, if_false, hfind, hany]
    cases haddr : SchoolManager.firstEmptyAddressField address with
    | some f =>
      simp [haddr, newAppError_validation, errCode, databaseError]
    | none =>
      by_cases hc : (contactInfo.email == "" || contactInfo.phone == "") = true
      · simp [haddr, hc, newAppError_validation, errCode, databaseError]
      · simp only [Bool.not_eq_true] at hc
        simp [haddr, hc, errCode]

/-- Witness for C9: against a store holding only a soft-deleted school
named Alpha High, requesting the name in different case is rejected
with RESOURCE_EXISTS and inserts nothing. -/
theorem c9_create_school_resource_exists_iff_witness :
    (¬ (jsTrim "alpha high" = "")) ∧
    ((errCode (SchoolManager.createSchool c9Db "alpha high" baseAddress baseContact none 5).2 =
        some "RESOURCE_EXISTS" ↔
      c9Db.schools.any (fun s => ciMatch "alpha high" s.name) = true) ∧
     (errCode (SchoolManager.createSchool c9Db "alpha high" baseAddress baseContact none 5).2 =
        some "RESOURCE_EXISTS" →
      (SchoolManager.createSchool c9Db "alpha high" baseAddress baseContact none 5).1 = c9Db)) :=
  ⟨by decide,
   c9_create_school_resource_exists_iff c9Db "alpha high" baseAddress baseContact none 5 (by decide)⟩

/-- C10: whenever `enrollStudent` fails (every failure of the
operation originates from one of the three precondition checks, all of
which precede the insert), the store is returned exactly as it was: no
student inserted and no classroom counter changed. -/
theorem c10_enroll_failure_leaves_store (db : DB) (schoolId : Nat) (classroomId : Option Nat)
    (firstName lastName email : String) (grade : Int) (now : Nat)
    (h : isErr (StudentManager.enrollStudent db schoolId classroomId
        firstName lastName email grade now).2 = true) :
    (StudentManager.enrollStudent db schoolId classroomId
        firstName lastName email grade now).1 = db := by
  have hbodyLemma := enrollStudentBody_error_fst db schoolId classroomId
    firstName lastName email grade now
  unfold StudentManager.enrollStudent at h ⊢
  cases hbody : StudentManager.enrollStudentBody db schoolId classroomId
      firstName lastName email grade now with
  | mk db1 r =>
    rw [hbody] at hbodyLemma
    cases r with
    | ok s => rw [hbody] at h; simp [isErr] at h
    | error e =>
      simpa using hbodyLemma (by simp [isJsErr])

/-- Witness for C10: the duplicate-email enrollment fails and leaves
the store untouched. -/
theorem c10_enroll_failure_leaves_store_witness :
    isErr (StudentManager.enrollStudent c10Db 1 none "A" "B" "dup@test.com" 4 100).2 = true ∧
    (StudentManager.enrollStudent c10Db 1 none "A" "B" "dup@test.com" 4 100).1 = c10Db :=
  ⟨rfl, c10_enroll_failure_leaves_store c10Db 1 none "A" "B" "dup@test.com" 4 100 rfl⟩
